import Mathlib

/-!
Verification of the DocJarvis consultation frontend
(repository `voice-assistant`, directory `frontend/src`).

The development shallowly embeds:
* the SSE streaming aggregator `completeSessionStream`
  (`frontend/src/api/client.ts`, lines 123-174), including the
  `JSON.parse`-based probe for the structured side-channel payload
  carrying `medication_english`;
* the streaming hook `startStream` / `stopStream`
  (`frontend/src/hooks/useStreamingResponse.ts`);
* the voice-consultation Zustand store
  (`frontend/src/utils/constants.ts`, second document, lines 327-569;
  the variant in `frontend/src/store/consultationStore.ts` lines 247-448
  agrees with it on every field and action modelled here);
* the classic consultation store and its `completeDiagnosis` action
  (`frontend/src/store/consultationStore.ts`, first document, lines 1-246);
* the backend session engine, which is part of the repository but not
  present under `frontend/src` (the FastAPI backend); its operations are
  modelled from the specification where noted.
-/

set_option autoImplicit false

namespace DocJarvis

/-! ## A model of `JSON.parse`

`completeSessionStream` probes every SSE data payload with `JSON.parse`
and inspects the `medication_english` property of the result.  We embed
a strict JSON value grammar and a fuel-indexed recursive-descent parser.
Numbers keep their source lexeme: the probe never inspects a numeric
value, only presence and null-ness of an object field.
-/

/-- JSON values as produced by `JSON.parse`. -/
inductive Json where
  | jnull
  | jbool (b : Bool)
  | jnum (lexeme : String)
  | jstr (s : String)
  | jarr (elems : List Json)
  | jobj (fields : List (String × Json))
deriving Repr

/-- JSON whitespace characters. -/
def isJsonWs (c : Char) : Bool :=
  c = ' ' || c = '\t' || c = '\n' || c = '\r'

/-- Drop leading JSON whitespace. -/
def skipWs : List Char → List Char
  | [] => []
  | c :: cs => if isJsonWs c then skipWs cs else c :: cs

/-- Value of a hexadecimal digit. -/
def hexDigitVal (c : Char) : Option Nat :=
  if '0' ≤ c ∧ c ≤ '9' then some (c.toNat - '0'.toNat)
  else if 'a' ≤ c ∧ c ≤ 'f' then some (c.toNat - 'a'.toNat + 10)
  else if 'A' ≤ c ∧ c ≤ 'F' then some (c.toNat - 'A'.toNat + 10)
  else none

/-- Single-character JSON string escapes. -/
def escapeChar (c : Char) : Option Char :=
  if c = '"' then some '"'
  else if c = '\\' then some '\\'
  else if c = '/' then some '/'
  else if c = 'b' then some (Char.ofNat 8)
  else if c = 'f' then some (Char.ofNat 12)
  else if c = 'n' then some '\n'
  else if c = 'r' then some '\r'
  else if c = 't' then some '\t'
  else none

/-- Parse the body of a JSON string after the opening quote.  Returns the
decoded characters and the remaining input.  Unescaped control characters
are rejected, as `JSON.parse` rejects them. -/
def parseStringBody : List Char → Option (List Char × List Char)
  | [] => none
  | c :: cs =>
    if c = '"' then some ([], cs)
    else if c = '\\' then
      match cs with
      | 'u' :: h1 :: h2 :: h3 :: h4 :: cs' => do
        let a ← hexDigitVal h1
        let b ← hexDigitVal h2
        let d ← hexDigitVal h3
        let e ← hexDigitVal h4
        let (body, r) ← parseStringBody cs'
        some (Char.ofNat (((a * 16 + b) * 16 + d) * 16 + e) :: body, r)
      | e :: cs' => do
        let ec ← escapeChar e
        let (body, r) ← parseStringBody cs'
        some (ec :: body, r)
      | [] => none
    else if c.toNat < 32 then none
    else do
      let (body, r) ← parseStringBody cs
      some (c :: body, r)

/-- Longest digit run at the front of the input. -/
def takeDigits : List Char → List Char × List Char
  | [] => ([], [])
  | c :: cs =>
    if c.isDigit then
      let (d, r) := takeDigits cs
      (c :: d, r)
    else ([], c :: cs)

/-- Integer part of a JSON number: `0` or a nonzero digit followed by
digits. -/
def parseIntPart : List Char → Option (List Char × List Char)
  | [] => none
  | c :: cs =>
    if c = '0' then some ([c], cs)
    else if c.isDigit then
      let (d, r) := takeDigits cs
      some (c :: d, r)
    else none

/-- Optional fractional part of a JSON number. -/
def parseFracPart : List Char → Option (List Char × List Char)
  | '.' :: cs =>
    match takeDigits cs with
    | ([], _) => none
    | (d, r) => some ('.' :: d, r)
  | cs => some ([], cs)

/-- Optional exponent part of a JSON number. -/
def parseExpPart : List Char → Option (List Char × List Char)
  | [] => some ([], [])
  | c :: cs =>
    if c = 'e' ∨ c = 'E' then
      match cs with
      | [] => none
      | s :: cs' =>
        if s = '+' ∨ s = '-' then
          match takeDigits cs' with
          | ([], _) => none
          | (d, r) => some (c :: s :: d, r)
        else
          match takeDigits cs with
          | ([], _) => none
          | (d, r) => some (c :: d, r)
    else some ([], c :: cs)

/-- Parse a JSON number (without leading sign); the sign is handled by
the caller.  Returns the lexeme and the rest of the input. -/
def parseNumBody (cs : List Char) : Option (List Char × List Char) := do
  let (ip, r1) ← parseIntPart cs
  let (fp, r2) ← parseFracPart r1
  let (ep, r3) ← parseExpPart r2
  some (ip ++ fp ++ ep, r3)

/-- Check that the input starts with the given literal characters,
returning the rest. -/
def expectLit : List Char → List Char → Option (List Char)
  | [], cs => some cs
  | _, [] => none
  | l :: ls, c :: cs => if c = l then expectLit ls cs else none

/-- Parse the members of a JSON object after the opening brace and an
optional first member has been found non-empty; `pv` parses one value.
Fuel bounds the number of members. -/
def parseMembers (pv : List Char → Option (Json × List Char)) :
    Nat → List Char → Option (List (String × Json) × List Char)
  | 0, _ => none
  | Nat.succ fuel, cs =>
    match skipWs cs with
    | '"' :: cs1 => do
      let (key, r1) ← parseStringBody cs1
      match skipWs r1 with
      | ':' :: r2 => do
        let (v, r3) ← pv r2
        match skipWs r3 with
        | ',' :: r4 => do
          let (rest, r5) ← parseMembers pv fuel r4
          some ((String.mk key, v) :: rest, r5)
        | c :: r4 =>
          if c = Char.ofNat 125 then some ([(String.mk key, v)], r4) else none
        | [] => none
      | _ => none
    | _ => none

/-- Parse the elements of a JSON array after the opening bracket once the
array is known non-empty; `pv` parses one value. -/
def parseElements (pv : List Char → Option (Json × List Char)) :
    Nat → List Char → Option (List Json × List Char)
  | 0, _ => none
  | Nat.succ fuel, cs => do
    let (v, r1) ← pv cs
    match skipWs r1 with
    | ',' :: r2 => do
      let (rest, r3) ← parseElements pv fuel r2
      some (v :: rest, r3)
    | ']' :: r2 => some ([v], r2)
    | _ => none

/-- Parse one JSON value (leading whitespace allowed).  Fuel bounds the
nesting depth. -/
def parseVal : Nat → List Char → Option (Json × List Char)
  | 0, _ => none
  | Nat.succ fuel, cs =>
    match skipWs cs with
    | [] => none
    | c :: rest =>
      if c = Char.ofNat 123 then
        match skipWs rest with
        | c1 :: r1 =>
          if c1 = Char.ofNat 125 then some (Json.jobj [], r1)
          else do
            let (fields, r) ← parseMembers (parseVal fuel) fuel (c1 :: r1)
            some (Json.jobj fields, r)
        | [] => none
      else if c = '[' then
        match skipWs rest with
        | ']' :: r1 => some (Json.jarr [], r1)
        | r1 => do
          let (elems, r) ← parseElements (parseVal fuel) fuel r1
          some (Json.jarr elems, r)
      else if c = '"' then do
        let (body, r) ← parseStringBody rest
        some (Json.jstr (String.mk body), r)
      else if c = '-' then do
        let (lex, r) ← parseNumBody rest
        some (Json.jnum (String.mk ('-' :: lex)), r)
      else if c.isDigit then do
        let (lex, r) ← parseNumBody (c :: rest)
        some (Json.jnum (String.mk lex), r)
      else if c = 't' then do
        let r ← expectLit ['r', 'u', 'e'] rest
        some (Json.jbool true, r)
      else if c = 'f' then do
        let r ← expectLit ['a', 'l', 's', 'e'] rest
        some (Json.jbool false, r)
      else if c = 'n' then do
        let r ← expectLit ['u', 'l', 'l'] rest
        some (Json.jnull, r)
      else none

/-- The model of `JSON.parse`: parse a complete JSON text, requiring the
whole input to be consumed (up to trailing whitespace). -/
def Json.parse (s : String) : Option Json :=
  match parseVal (s.data.length + 1) s.data with
  | some (v, rest) => if skipWs rest = [] then some v else none
  | none => none

/-- Property lookup on a parsed JSON object.  `JSON.parse` lets a later
duplicate key overwrite an earlier one, so the last binding wins. -/
def lookupField (fields : List (String × Json)) (key : String) : Option Json :=
  match fields with
  | [] => none
  | (k, v) :: rest =>
    match lookupField rest key with
    | some w => some w
    | none => if k = key then some v else none

/-- The side-channel probe of `completeSessionStream`
(`client.ts` lines 157-162): `JSON.parse` the payload and test
`parsed?.medication_english != null`.  Returns the field value when the
payload is a JSON object whose `medication_english` member is present
and non-null. -/
def medicationEnglishOf (data : String) : Option Json :=
  match Json.parse data with
  | some (Json.jobj fields) =>
    match lookupField fields ("medication_english") with
    | some Json.jnull => none
    | some v => some v
    | none => none
  | _ => none

/-! ## The streaming aggregator of `client.ts` (`completeSessionStream`)

`completeSessionStream` reads the response body, splits each read into
lines, and processes every line that starts with `data: `.  A payload
equal to `[DONE]` triggers `onComplete` and stops processing; a payload
whose `JSON.parse` result has a non-null `medication_english` property
is routed to `onEnglishParaphrase` (when that callback is provided) and
skipped; every other payload is handed to `onChunk`.  When the reader
reports end of stream without the sentinel, `onComplete` is still
called; a thrown transport error lands in `onError`.

The embedding feeds the aggregator the flat list of received lines plus
a terminator saying whether the transport closed cleanly or errored,
and records the callback invocations as an event list.
-/

/-- How the transport run ends once all received lines are processed. -/
inductive StreamEnd where
  | closed
  | errored (msg : String)
deriving Repr, DecidableEq

/-- A callback invocation of `completeSessionStream`. -/
inductive SSEvent where
  | chunk (data : String)
  | paraphrase (v : Json)
  | complete
  | failure (msg : String)
deriving Repr

/-- The SSE payload of a line: `line.slice(6)` when the line starts with
the six characters `data: `, nothing otherwise (`client.ts` 151-152). -/
def dataOf (line : String) : Option String :=
  match line.data with
  | 'd' :: 'a' :: 't' :: 'a' :: ':' :: ' ' :: rest => some (String.mk rest)
  | _ => none

/-- Classification of one non-sentinel payload (`client.ts` 157-166):
probe with `JSON.parse`; a recognized side-channel payload goes to the
paraphrase callback when it is provided, every other payload to
`onChunk`. -/
def chunkEventOf (hasParaCb : Bool) (d : String) : SSEvent :=
  match medicationEnglishOf d with
  | some v => if hasParaCb then SSEvent.paraphrase v else SSEvent.chunk d
  | none => SSEvent.chunk d

/-- The event trace of `completeSessionStream` (`client.ts` 123-174) on
a given line feed and transport terminator. -/
def completeSessionStream (hasParaCb : Bool) (ending : StreamEnd) :
    List String → List SSEvent
  | [] =>
    match ending with
    | StreamEnd.closed => [SSEvent.complete]
    | StreamEnd.errored m => [SSEvent.failure m]
  | line :: rest =>
    match dataOf line with
    | none => completeSessionStream hasParaCb ending rest
    | some d =>
      if d = "[DONE]" then [SSEvent.complete]
      else chunkEventOf hasParaCb d :: completeSessionStream hasParaCb ending rest

/-- All SSE payloads of a line feed, in arrival order. -/
def payloads (lines : List String) : List String :=
  lines.filterMap dataOf

/-- The payloads the aggregator actually processes: those before the
first `[DONE]` sentinel. -/
def activePayloads (lines : List String) : List String :=
  (payloads lines).takeWhile (fun d => d != "[DONE]")

/-- The per-payload events for a list of processed payloads. -/
def chunkEvents (hasParaCb : Bool) (ds : List String) : List SSEvent :=
  ds.map (chunkEventOf hasParaCb)

/-- The terminator events of a client stream run that never saw the
sentinel. -/
def endEvents : StreamEnd → List SSEvent
  | StreamEnd.closed => [SSEvent.complete]
  | StreamEnd.errored m => [SSEvent.failure m]

/-- The payloads delivered to `onChunk` within an event trace. -/
def bodyChunks (events : List SSEvent) : List String :=
  events.filterMap fun e =>
    match e with
    | SSEvent.chunk s => some s
    | _ => none

/-- The values delivered to `onEnglishParaphrase` within an event
trace. -/
def paraphrases (events : List SSEvent) : List Json :=
  events.filterMap fun e =>
    match e with
    | SSEvent.paraphrase v => some v
    | _ => none

/-- Concatenation of a list of strings in order; this is how the stores
accumulate `streamedMedication` (one append per `onChunk` call). -/
def concatAll : List String → String
  | [] => ""
  | s :: rest => s ++ concatAll rest

/-! ## The streaming hook (`useStreamingResponse.ts`)

`startStream` accumulates `fullResponse` across `onChunk` deliveries,
fires `onComplete(fullResponse)` on the sentinel or on a clean close,
fires `onError` on a thrown transport error — except that an
`AbortError` (raised by `stopStream`, which aborts the underlying
`AbortController`) returns silently, suppressing every further
callback. -/

/-- How a hook stream run ends: clean close, transport error, or
cancellation through `stopStream` (the abort surfaces as an
`AbortError` on the pending read). -/
inductive HookEnd where
  | closed
  | errored (msg : String)
  | aborted
deriving Repr, DecidableEq

/-- A callback invocation of the hook's `startStream`. -/
inductive HookEvent where
  | chunk (data : String)
  | complete (full : String)
  | failure (msg : String)
deriving Repr, DecidableEq

/-- Terminator events of a hook run that never saw the sentinel
(`useStreamingResponse.ts` 70-79): completion with the accumulated text
on clean close, an error event on transport error, and nothing at all
after an abort. -/
def hookEndEvents : HookEnd → String → List HookEvent
  | HookEnd.closed, full => [HookEvent.complete full]
  | HookEnd.errored m, _ => [HookEvent.failure m]
  | HookEnd.aborted, _ => []

/-- The event trace of the hook's `startStream`
(`useStreamingResponse.ts` 23-80), given the accumulated response so
far, the terminator, and the remaining lines. -/
def startStream (acc : String) (ending : HookEnd) : List String → List HookEvent
  | [] => hookEndEvents ending acc
  | line :: rest =>
    match dataOf line with
    | none => startStream acc ending rest
    | some d =>
      if d = "[DONE]" then [HookEvent.complete acc]
      else HookEvent.chunk d :: startStream (acc ++ d) ending rest

/-! ## Frontend data types (`frontend/src/api/types.ts`) -/

/-- Patient gender (`types.ts`). -/
inductive Gender where
  | male
  | female
  | other
  | undisclosed
deriving Repr, DecidableEq

/-- Supported interface languages (`types.ts`). -/
inductive Language where
  | en | hi | bn | gu | kn
  | ml | ta | te | ur | es
  | fr | zh | ja | ko | mr
deriving Repr, DecidableEq

/-- Session status (`types.ts`). -/
inductive SessionStatus where
  | active
  | completed
  | cancelled
deriving Repr, DecidableEq

/-- One question/answer turn (`types.ts`). -/
structure ConversationTurn where
  question : String
  answer : String
deriving Repr, DecidableEq

/-- The server-side session snapshot returned by `getSession`
(`types.ts`, `SessionState`). -/
structure SessionState where
  session_id : String
  status : SessionStatus
  patient_age : Int
  patient_gender : Gender
  language : Language
  initial_complaint : String
  questions : List String
  conversation : List ConversationTurn
  current_question_index : Nat
  medication : Option String
  prescription_path : Option String
deriving Repr, DecidableEq

/-- The patient form data kept in the stores (`types.ts`). -/
structure PatientFormData where
  age : Int
  gender : Gender
  language : Language
deriving Repr, DecidableEq

/-- The response of `apiClient.submitAnswer` (`client.ts` 102-115); the
`status` field is never read by the stores and is omitted. -/
structure SubmitResp where
  current_index : Nat
  is_complete : Bool
  next_question : Option String
deriving Repr, DecidableEq

/-! ## The voice-first consultation store

Embedded from the second document of `frontend/src/utils/constants.ts`
(lines 327-569).  The store variant in
`frontend/src/store/consultationStore.ts` (lines 247-448) has the same
fields except `streamedMedicationEnglish` and `questions`, and its
`submitVoiceAnswer` is identical on every field modelled here (it only
omits the `onEnglishParaphrase` callback). -/

/-- The phase union of the voice store (`constants.ts` line 4). -/
inductive ConsultationPhase where
  | patientInfo
  | voiceConsultation
deriving Repr, DecidableEq

/-- The state of the voice consultation store
(`constants.ts` 336-374).  `streamedMedicationEnglish` holds whatever
value the side-channel callback received, hence a JSON value. -/
structure VoiceStore where
  sessionId : Option String
  sessionState : Option SessionState
  patientData : PatientFormData
  phase : ConsultationPhase
  currentQuestionIndex : Nat
  isLoading : Bool
  isProcessing : Bool
  isListening : Bool
  isSpeaking : Bool
  isComplete : Bool
  error : Option String
  conversationHistory : List ConversationTurn
  currentQuestion : Option String
  streamedMedication : String
  streamedMedicationEnglish : Option Json
  questions : List String
deriving Repr

/-- The default patient data (`constants.ts` 376-380). -/
def initialPatientData : PatientFormData :=
  { age := 30, gender := Gender.undisclosed, language := Language.en }

/-- The creation-time store state (`constants.ts` 386-401). -/
def initialVoiceStore : VoiceStore :=
  { sessionId := none
    sessionState := none
    patientData := initialPatientData
    phase := ConsultationPhase.patientInfo
    currentQuestionIndex := 0
    isLoading := false
    isProcessing := false
    isListening := false
    isSpeaking := false
    isComplete := false
    error := none
    conversationHistory := []
    currentQuestion := none
    streamedMedication := ""
    streamedMedicationEnglish := none
    questions := [] }

/-- The `reset` action (`constants.ts` 523-539).  The partial-state
`set` lists every field except `questions`, which therefore keeps its
current value. -/
def VoiceStore.reset (st : VoiceStore) : VoiceStore :=
  { sessionId := none
    sessionState := none
    patientData := initialPatientData
    phase := ConsultationPhase.patientInfo
    currentQuestionIndex := 0
    isLoading := false
    isProcessing := false
    isListening := false
    isSpeaking := false
    isComplete := false
    error := none
    conversationHistory := []
    currentQuestion := none
    streamedMedication := ""
    streamedMedicationEnglish := none
    questions := st.questions }

/-- The stream callbacks passed by `submitVoiceAnswer`
(`constants.ts` 482-504): `onChunk` appends to `streamedMedication`,
`onComplete` marks the consultation complete, `onError` records the
message, `onEnglishParaphrase` stores the side-channel value. -/
def applyVoiceStreamEvent (st : VoiceStore) : SSEvent → VoiceStore
  | SSEvent.chunk c => { st with streamedMedication := st.streamedMedication ++ c }
  | SSEvent.paraphrase v => { st with streamedMedicationEnglish := some v }
  | SSEvent.complete => { st with isComplete := true, isProcessing := false }
  | SSEvent.failure m => { st with error := some m, isProcessing := false }

/-- The network requests `submitVoiceAnswer` can issue, in order. -/
inductive NetRequest where
  | submitAnswerReq (sessionId : String) (questionIndex : Nat) (answer : String)
  | completeStreamReq (sessionId : String)
  | getSessionReq (sessionId : String)
deriving Repr, DecidableEq

/-- The `submitVoiceAnswer` action (`constants.ts` 458-521), with the
outcomes of the awaited network calls passed in as parameters:
`submitResult` for `apiClient.submitAnswer`, the line feed and
terminator for `apiClient.completeSessionStream`, and `sessionResult`
for `apiClient.getSession`.  Returns the new store state and the list
of requests issued.  The initial guard mirrors the JavaScript
truthiness test `!sessionId || !currentQuestion` (null and the empty
string are both falsy). -/
def submitVoiceAnswerTr (st : VoiceStore) (answer : String)
    (submitResult : Except String SubmitResp)
    (streamLines : List String) (streamEnd : StreamEnd)
    (sessionResult : Except String SessionState) :
    VoiceStore × List NetRequest :=
  match st.sessionId, st.currentQuestion with
  | some sid, some q =>
    if sid = "" ∨ q = "" then (st, [])
    else
      let st1 := { st with isListening := false, isProcessing := true, error := none }
      match submitResult with
      | Except.error m =>
        ({ st1 with error := some m, isProcessing := false },
         [NetRequest.submitAnswerReq sid st.currentQuestionIndex answer])
      | Except.ok resp =>
        let updatedHistory := st.conversationHistory ++ [{ question := q, answer := answer }]
        if resp.is_complete then
          let st2 := { st1 with
            conversationHistory := updatedHistory
            currentQuestion := none
            isProcessing := true }
          ((completeSessionStream true streamEnd streamLines).foldl applyVoiceStreamEvent st2,
           [NetRequest.submitAnswerReq sid st.currentQuestionIndex answer,
            NetRequest.completeStreamReq sid])
        else
          match sessionResult with
          | Except.error m =>
            ({ st1 with error := some m, isProcessing := false },
             [NetRequest.submitAnswerReq sid st.currentQuestionIndex answer,
              NetRequest.getSessionReq sid])
          | Except.ok sess =>
            ({ st1 with
                conversationHistory := updatedHistory
                currentQuestion := sess.questions.get? resp.current_index
                currentQuestionIndex := resp.current_index
                isProcessing := false },
             [NetRequest.submitAnswerReq sid st.currentQuestionIndex answer,
              NetRequest.getSessionReq sid])
  | _, _ => (st, [])

/-- The store state after `submitVoiceAnswer`. -/
def submitVoiceAnswer (st : VoiceStore) (answer : String)
    (submitResult : Except String SubmitResp)
    (streamLines : List String) (streamEnd : StreamEnd)
    (sessionResult : Except String SessionState) : VoiceStore :=
  (submitVoiceAnswerTr st answer submitResult streamLines streamEnd sessionResult).1

/-! ## The classic consultation store and `completeDiagnosis`

Embedded from the first document of
`frontend/src/store/consultationStore.ts` (lines 1-246). -/

/-- The six-valued phase union of the classic store
(`consultationStore.ts` 12-18). -/
inductive ConsultationPhaseClassic where
  | patientInfo
  | complaint
  | questions
  | diagnosis
  | prescription
  | complete
deriving Repr, DecidableEq

/-- The state of the classic consultation store
(`consultationStore.ts` 20-49). -/
structure ConsultationStore where
  sessionId : Option String
  sessionState : Option SessionState
  patientData : PatientFormData
  complaint : String
  phase : ConsultationPhaseClassic
  currentQuestionIndex : Nat
  isLoading : Bool
  isStreaming : Bool
  error : Option String
  streamedMedication : String
deriving Repr, DecidableEq

/-- The stream callbacks of `completeDiagnosis`
(`consultationStore.ts` 158-181): `onChunk` appends the delta,
`onComplete` stores the freshly fetched session and advances the phase
to `prescription`, `onError` records the message.  `completeDiagnosis`
passes no `onEnglishParaphrase` callback, so the aggregator never emits
a paraphrase event for it (`hasParaCb = false`); the arm is vacuous. -/
def applyDiagnosisEvent (fetched : SessionState) (st : ConsultationStore) :
    SSEvent → ConsultationStore
  | SSEvent.chunk c => { st with streamedMedication := st.streamedMedication ++ c }
  | SSEvent.paraphrase _ => st
  | SSEvent.complete =>
    { st with sessionState := some fetched, phase := ConsultationPhaseClassic.prescription,
              isLoading := false, isStreaming := false }
  | SSEvent.failure m =>
    { st with error := some m, isLoading := false, isStreaming := false }

/-- The streaming branch of `completeDiagnosis`
(`consultationStore.ts` 150-181): guard on a falsy `sessionId`, reset
the streaming fields, then run `completeSessionStream` (without the
paraphrase callback) and apply each callback in order.  `fetched` is
the session returned by the `getSession` call inside `onComplete`. -/
def completeDiagnosisStream (st : ConsultationStore) (fetched : SessionState)
    (lines : List String) (ending : StreamEnd) : ConsultationStore :=
  match st.sessionId with
  | none => st
  | some sid =>
    if sid = "" then st
    else
      let st1 := { st with isLoading := true, isStreaming := true, error := none,
                           streamedMedication := "" }
      (completeSessionStream false ending lines).foldl (applyDiagnosisEvent fetched) st1

/-- The same completion callbacks, shaped for the hook's event types:
`useStreamingResponse` accepts exactly the `onChunk` / `onComplete` /
`onError` triple that `completeDiagnosis` builds, so a cancellable run
of the completion stream applies these handlers to the hook's events. -/
def applyDiagnosisHookEvent (fetched : SessionState) (st : ConsultationStore) :
    HookEvent → ConsultationStore
  | HookEvent.chunk c => { st with streamedMedication := st.streamedMedication ++ c }
  | HookEvent.complete _ =>
    { st with sessionState := some fetched, phase := ConsultationPhaseClassic.prescription,
              isLoading := false, isStreaming := false }
  | HookEvent.failure m =>
    { st with error := some m, isLoading := false, isStreaming := false }

/-- A completion attempt over the cancellable transport: the hook's
`startStream` feeds the `completeDiagnosis` callbacks
(`useStreamingResponse.ts` 23-80 with `consultationStore.ts` 150-181). -/
def runDiagnosisHook (st : ConsultationStore) (fetched : SessionState)
    (lines : List String) (ending : HookEnd) : ConsultationStore :=
  (startStream "" ending lines).foldl (applyDiagnosisHookEvent fetched)
    { st with isLoading := true, isStreaming := true, error := none,
              streamedMedication := "" }

/-- The recommendation text recorded on the session from the store's
point of view: the `medication` field of the session snapshot. -/
def recommendationOf (st : ConsultationStore) : Option String :=
  st.sessionState.bind fun s => s.medication

/-! ## The backend session engine

The repository's FastAPI backend (directory `backend/` in the project
tree, see the README) is not present under the sources; only its
frontend callers are.  The orchestrator operations below are therefore
modelled from the specification (sections 3, 4.1, 4.2 and 7), using the
validation bounds that do appear in the frontend sources
(`constants.ts` 23-30) and the supported language set (`types.ts`). -/

/-- Session phases of the backend state machine (spec section 4.1). -/
inductive SessionPhase where
  | collectingInfo
  | collectingComplaint
  | answeringQuestions
  | generatingRecommendation
  | done
deriving Repr, DecidableEq

/-- The error taxonomy (spec section 7). -/
inductive OrchError where
  | invalidPatientInfo
  | invalidPhaseTransition
  | questionIndexOutOfRange
  | sessionBusy
  | sessionNotFound
  | upstreamGenerationFailure
  | translationFailure
  | streamAborted
deriving Repr, DecidableEq

/-- Modelled from the spec: the backend session record (spec section 3).
The language is kept as its wire-level code so that the supported-set
check is meaningful. -/
structure Session where
  id : String
  status : SessionStatus
  phase : SessionPhase
  patientAge : Int
  patientGender : Gender
  language : String
  initialComplaint : String
  questions : List String
  conversation : List ConversationTurn
  currentQuestionIndex : Nat
  recommendationText : Option String
  recommendationPivotText : Option String
deriving Repr, DecidableEq

/-- Patient info submitted to `createSession`, at wire level. -/
structure PatientInfo where
  age : Int
  gender : Gender
  language : String
deriving Repr, DecidableEq

/-- The generative-model collaborator, as seen by the orchestrator: a
prompt produces a parsed question list, or fails/returns garbage
(`none`). -/
def GenOracle : Type := String → Option (List String)

/-- Age bounds of the application (`constants.ts` 23-30, `VALIDATION`). -/
def VALIDATION_MIN_AGE : Int := 1

/-- Age bounds of the application (`constants.ts` 23-30, `VALIDATION`). -/
def VALIDATION_MAX_AGE : Int := 90

/-- The supported language codes (`types.ts`, the `Language` union). -/
def supportedLanguageCodes : List String :=
  ["en", "hi", "bn", "gu", "kn",
   "ml", "ta", "te", "ur", "es",
   "fr", "zh", "ja", "ko", "mr"]

/-- Modelled from the spec: the accepted domain of `createSession`
(spec section 4.2 with the bounds of `constants.ts`). -/
def validPatientInfo (info : PatientInfo) : Bool :=
  decide (VALIDATION_MIN_AGE ≤ info.age ∧ info.age ≤ VALIDATION_MAX_AGE ∧
    info.language ∈ supportedLanguageCodes)

/-- Modelled from the spec: the backend `createSession` (spec section
4.2; the backend itself is not under the sources).  Allocates an
`active` session in phase `collecting-info` with no generated content;
rejects out-of-domain patient info with `InvalidPatientInfo`.  The
generative collaborator is a parameter only to state that creation
never consults it. -/
def newSessionOf (newId : String) (info : PatientInfo) : Session :=
  { id := newId
    status := SessionStatus.active
    phase := SessionPhase.collectingInfo
    patientAge := info.age
    patientGender := info.gender
    language := info.language
    initialComplaint := ""
    questions := []
    conversation := []
    currentQuestionIndex := 0
    recommendationText := none
    recommendationPivotText := none }

/-- Modelled from the spec: the allocation performed by a successful
`createSession` call. -/
def createSession (gen : GenOracle) (newId : String) (info : PatientInfo) :
    Except OrchError Session :=
  if validPatientInfo info then Except.ok (newSessionOf newId info)
  else Except.error OrchError.invalidPatientInfo

/-- Modelled from the spec: parsing of the collaborator's question list
(spec sections 4.2 and 9) — a failed or empty response is malformed. -/
def parseQuestionList : Option (List String) → Option (List String)
  | none => none
  | some [] => none
  | some qs => some qs

/-- Modelled from the spec: the backend `generateQuestions` (spec
section 4.2; the backend itself is not under the sources).  Valid only
once per session, while `questions` is empty and the phase still
precedes `answering-questions`; afterwards every call fails with
`InvalidPhaseTransition`.  On a malformed response it retries once
(`genRetry`) and then fails with `UpstreamGenerationFailure`.  On
success it commits `questions` and `initialComplaint` atomically and
advances the phase. -/
def generateQuestions (gen genRetry : GenOracle) (s : Session)
    (complaintText : String) : Except OrchError Session :=
  if s.questions = [] ∧
      (s.phase = SessionPhase.collectingInfo ∨ s.phase = SessionPhase.collectingComplaint) then
    match parseQuestionList (gen complaintText) with
    | some qs =>
      Except.ok { s with questions := qs, initialComplaint := complaintText,
                         phase := SessionPhase.answeringQuestions, currentQuestionIndex := 0 }
    | none =>
      match parseQuestionList (genRetry complaintText) with
      | some qs =>
        Except.ok { s with questions := qs, initialComplaint := complaintText,
                           phase := SessionPhase.answeringQuestions, currentQuestionIndex := 0 }
      | none => Except.error OrchError.upstreamGenerationFailure
  else Except.error OrchError.invalidPhaseTransition

/-- The result of an accepted answer (spec section 4.2). -/
structure SubmitOutcome where
  isComplete : Bool
  nextQuestion : Option String
deriving Repr, DecidableEq

/-- Modelled from the spec: the backend `submitAnswer` (spec section
4.2; the backend itself is not under the sources).  Fails with
`QuestionIndexOutOfRange` unless `questionIndex` equals the session's
`currentQuestionIndex` (the first failure condition stated in the
spec), and with `InvalidPhaseTransition` outside `answering-questions`.
An accepted answer appends the turn and advances the index by exactly
one; answering the last question transitions to
`generating-recommendation`.  An error performs no mutation: the
session is only rebuilt on the `ok` path. -/
def submitAnswer (s : Session) (questionIndex : Nat) (answerText : String) :
    Except OrchError (Session × SubmitOutcome) :=
  if questionIndex ≠ s.currentQuestionIndex then
    Except.error OrchError.questionIndexOutOfRange
  else if s.phase ≠ SessionPhase.answeringQuestions then
    Except.error OrchError.invalidPhaseTransition
  else
    let turn : ConversationTurn :=
      { question := (s.questions.get? questionIndex).getD (""), answer := answerText }
    let conv := s.conversation ++ [turn]
    let idx := s.currentQuestionIndex + 1
    if idx = s.questions.length then
      Except.ok
        ({ s with conversation := conv, currentQuestionIndex := idx,
                  phase := SessionPhase.generatingRecommendation },
         { isComplete := true, nextQuestion := none })
    else
      Except.ok
        ({ s with conversation := conv, currentQuestionIndex := idx },
         { isComplete := false, nextQuestion := s.questions.get? idx })

/-! ## Concrete inputs for witnesses and counterexamples -/

/-- The round-trip line feed of the specification's aggregator test. -/
def exampleLines : List String :=
  ["data: Take ", "data: rest ",
   "data: \x7b\"medication_english\": \"Rest\"\x7d",
   "data: and hydrate.", "data: [DONE]"]

/-- A session snapshot used by concrete runs. -/
def cexSession : SessionState :=
  { session_id := "s1"
    status := SessionStatus.active
    patient_age := 30
    patient_gender := Gender.undisclosed
    language := Language.en
    initial_complaint := ""
    questions := ["Q1"]
    conversation := []
    current_question_index := 1
    medication := none
    prescription_path := none }

/-- A voice-store state about to submit the answer to the only
question. -/
def cexVoiceState : VoiceStore :=
  { initialVoiceStore with
      sessionId := some ("s1")
      sessionState := some cexSession
      currentQuestion := some ("Q1")
      questions := ["Q1"] }

/-- A server response accepting the final answer. -/
def cexSubmitResp : SubmitResp :=
  { current_index := 1, is_complete := true, next_question := none }

/-- A line feed consisting of the sentinel only. -/
def cexDoneLines : List String := ["data: [DONE]"]

/-- A voice-store state with committed questions, for the reset
counterexample. -/
def cexResetState : VoiceStore :=
  { initialVoiceStore with questions := ["Q1"] }

/-- A classic-store state in the `diagnosis` phase with no
recommendation yet. -/
def cexDiagState : ConsultationStore :=
  { sessionId := some ("s1")
    sessionState := some cexSession
    patientData := initialPatientData
    complaint := "headache"
    phase := ConsultationPhaseClassic.diagnosis
    currentQuestionIndex := 1
    isLoading := false
    isStreaming := false
    error := none
    streamedMedication := "" }

/-- Partial body chunks received before a cancellation. -/
def cexAbortLines : List String := ["data: Part"]

/-- The line feed of a successful retry. -/
def cexRetryLines : List String := ["data: [DONE]"]

/-- A hook line feed containing body text and the sentinel. -/
def cexHookLines : List String :=
  ["data: Hello ", "data: world", "data: [DONE]", "data: late"]

/-- A backend session in `answering-questions` with the index at 0. -/
def cexBackendSession : Session :=
  { id := "sess1"
    status := SessionStatus.active
    phase := SessionPhase.answeringQuestions
    patientAge := 30
    patientGender := Gender.undisclosed
    language := "en"
    initialComplaint := "headache"
    questions := ["Q1", "Q2"]
    conversation := []
    currentQuestionIndex := 0
    recommendationText := none
    recommendationPivotText := none }

/-- A freshly created backend session. -/
def cexFreshSession : Session :=
  { id := "sess1"
    status := SessionStatus.active
    phase := SessionPhase.collectingInfo
    patientAge := 30
    patientGender := Gender.undisclosed
    language := "en"
    initialComplaint := ""
    questions := []
    conversation := []
    currentQuestionIndex := 0
    recommendationText := none
    recommendationPivotText := none }

/-- The backend session after its questions have been committed. -/
def cexCommittedSession : Session :=
  { cexFreshSession with
      questions := ["Q1", "Q2"]
      initialComplaint := "I have a headache"
      phase := SessionPhase.answeringQuestions
      currentQuestionIndex := 0 }

/-- A generative collaborator returning two questions. -/
def cexGen : GenOracle := fun _ => some [("Q1"), ("Q2")]

/-- A generative collaborator that always fails. -/
def cexGenFail : GenOracle := fun _ => none

/-- In-domain patient info. -/
def cexInfo : PatientInfo :=
  { age := 30, gender := Gender.undisclosed, language := "en" }

/-- Whether a hook event is a completion event. -/
def isCompleteEvent : HookEvent → Bool
  | HookEvent.complete _ => true
  | _ => false

/-! ## Helper lemmas -/

theorem payloads_nil : payloads [] = [] := rfl

theorem payloads_cons_none {line : String} (rest : List String)
    (h : dataOf line = none) : payloads (line :: rest) = payloads rest := by
  simp [payloads, List.filterMap_cons, h]

theorem payloads_cons_some {line d : String} (rest : List String)
    (h : dataOf line = some d) : payloads (line :: rest) = d :: payloads rest := by
  simp [payloads, List.filterMap_cons, h]

theorem activePayloads_nil : activePayloads [] = [] := rfl

theorem activePayloads_cons_none {line : String} (rest : List String)
    (h : dataOf line = none) : activePayloads (line :: rest) = activePayloads rest := by
  simp [activePayloads, payloads_cons_none rest h]

theorem activePayloads_cons_done {line : String} (rest : List String)
    (h : dataOf line = some ("[DONE]")) : activePayloads (line :: rest) = [] := by
  simp [activePayloads, payloads_cons_some rest h, List.takeWhile_cons]

theorem activePayloads_cons_some {line d : String} (rest : List String)
    (h : dataOf line = some d) (hd : d ≠ "[DONE]") :
    activePayloads (line :: rest) = d :: activePayloads rest := by
  simp [activePayloads, payloads_cons_some rest h, List.takeWhile_cons, hd]

theorem chunkEventOf_ne_complete (hasCb : Bool) (d : String) :
    chunkEventOf hasCb d ≠ SSEvent.complete := by
  unfold chunkEventOf
  cases medicationEnglishOf d with
  | none => simp
  | some v => cases hasCb <;> simp

theorem complete_not_mem_chunkEvents (hasCb : Bool) (ds : List String) :
    SSEvent.complete ∉ chunkEvents hasCb ds := by
  intro hmem
  rcases List.mem_map.mp (by simpa [chunkEvents] using hmem) with ⟨d, _, hEq⟩
  exact chunkEventOf_ne_complete hasCb d hEq

/-- Structure of a client-stream run: the per-payload events for the
payloads before the sentinel, followed by a single completion if the
sentinel arrived, and otherwise by the terminator's event. -/
theorem completeSessionStream_eq (hasCb : Bool) (ending : StreamEnd) :
    ∀ lines : List String,
      completeSessionStream hasCb ending lines =
        chunkEvents hasCb (activePayloads lines) ++
          (if ("[DONE]" : String) ∈ payloads lines then [SSEvent.complete]
           else endEvents ending)
  | [] => by
    cases ending <;> simp [completeSessionStream, activePayloads, payloads, chunkEvents, endEvents]
  | line :: rest => by
    cases h : dataOf line with
    | none =>
      rw [show completeSessionStream hasCb ending (line :: rest)
            = completeSessionStream hasCb ending rest by
          simp [completeSessionStream, h]]
      rw [completeSessionStream_eq hasCb ending rest, activePayloads_cons_none rest h,
        payloads_cons_none rest h]
    | some d =>
      by_cases hd : d = "[DONE]"
      · subst hd
        rw [show completeSessionStream hasCb ending (line :: rest) = [SSEvent.complete] by
            simp [completeSessionStream, h]]
        rw [activePayloads_cons_done rest h, payloads_cons_some rest h]
        simp [chunkEvents]
      · rw [show completeSessionStream hasCb ending (line :: rest)
              = chunkEventOf hasCb d :: completeSessionStream hasCb ending rest by
            simp [completeSessionStream, h, hd]]
        rw [completeSessionStream_eq hasCb ending rest, activePayloads_cons_some rest h hd,
          payloads_cons_some rest h]
        by_cases hm : ("[DONE]" : String) ∈ payloads rest
        · rw [if_pos hm, if_pos (List.mem_cons_of_mem d hm)]
          simp [chunkEvents]
        · rw [if_neg hm,
            if_neg (fun hc => (List.mem_cons.mp hc).elim (fun h1 => hd h1.symm) hm)]
          simp [chunkEvents]

/-- Structure of a hook-stream run: chunk events for the payloads
before the sentinel, then a completion carrying the accumulated text if
the sentinel arrived, and otherwise the terminator's events (nothing at
all after an abort). -/
theorem startStream_eq (ending : HookEnd) :
    ∀ (lines : List String) (acc : String),
      startStream acc ending lines =
        (activePayloads lines).map HookEvent.chunk ++
          (if ("[DONE]" : String) ∈ payloads lines
           then [HookEvent.complete (acc ++ concatAll (activePayloads lines))]
           else hookEndEvents ending (acc ++ concatAll (activePayloads lines)))
  | [], acc => by
    cases ending <;>
      simp [startStream, activePayloads, payloads, hookEndEvents, concatAll,
        String.append_empty]
  | line :: rest, acc => by
    cases h : dataOf line with
    | none =>
      rw [show startStream acc ending (line :: rest) = startStream acc ending rest by
          simp [startStream, h]]
      rw [startStream_eq ending rest acc, activePayloads_cons_none rest h,
        payloads_cons_none rest h]
    | some d =>
      by_cases hd : d = "[DONE]"
      · subst hd
        rw [show startStream acc ending (line :: rest) = [HookEvent.complete acc] by
            simp [startStream, h]]
        rw [activePayloads_cons_done rest h, payloads_cons_some rest h]
        simp [concatAll, String.append_empty]
      · rw [show startStream acc ending (line :: rest)
              = HookEvent.chunk d :: startStream (acc ++ d) ending rest by
            simp [startStream, h, hd]]
        rw [startStream_eq ending rest (acc ++ d), activePayloads_cons_some rest h hd,
          payloads_cons_some rest h]
        by_cases hm : ("[DONE]" : String) ∈ payloads rest
        · rw [if_pos hm, if_pos (List.mem_cons_of_mem d hm)]
          simp [concatAll, String.append_assoc]
        · rw [if_neg hm,
            if_neg (fun hc => (List.mem_cons.mp hc).elim (fun h1 => hd h1.symm) hm)]
          simp [concatAll, String.append_assoc]

theorem bodyChunks_append (l1 l2 : List SSEvent) :
    bodyChunks (l1 ++ l2) = bodyChunks l1 ++ bodyChunks l2 := by
  simp [bodyChunks, List.filterMap_append]

theorem paraphrases_append (l1 l2 : List SSEvent) :
    paraphrases (l1 ++ l2) = paraphrases l1 ++ paraphrases l2 := by
  simp [paraphrases, List.filterMap_append]

theorem bodyChunks_chunkEvents (ds : List String) :
    bodyChunks (chunkEvents true ds) =
      ds.filter (fun d => (medicationEnglishOf d).isNone) := by
  induction ds with
  | nil => rfl
  | cons d rest ih =>
    cases h : medicationEnglishOf d with
    | none =>
      simp [chunkEvents, chunkEventOf, h, bodyChunks, List.filterMap_cons, List.filter_cons] at ih ⊢
      exact ih
    | some v =>
      simp [chunkEvents, chunkEventOf, h, bodyChunks, List.filterMap_cons, List.filter_cons] at ih ⊢
      exact ih

theorem paraphrases_chunkEvents (ds : List String) :
    paraphrases (chunkEvents true ds) = ds.filterMap medicationEnglishOf := by
  induction ds with
  | nil => rfl
  | cons d rest ih =>
    cases h : medicationEnglishOf d with
    | none =>
      simp [chunkEvents, chunkEventOf, h, paraphrases, List.filterMap_cons] at ih ⊢
      exact ih
    | some v =>
      simp [chunkEvents, chunkEventOf, h, paraphrases, List.filterMap_cons] at ih ⊢
      exact ih

theorem bodyChunks_tail (b : Prop) [Decidable b] (ending : StreamEnd) :
    bodyChunks (if b then [SSEvent.complete] else endEvents ending) = [] := by
  split
  · rfl
  · cases ending <;> rfl

theorem paraphrases_tail (b : Prop) [Decidable b] (ending : StreamEnd) :
    paraphrases (if b then [SSEvent.complete] else endEvents ending) = [] := by
  split
  · rfl
  · cases ending <;> rfl

theorem foldl_voice_frame : ∀ (evs : List SSEvent) (st : VoiceStore),
    (evs.foldl applyVoiceStreamEvent st).conversationHistory = st.conversationHistory ∧
    (evs.foldl applyVoiceStreamEvent st).currentQuestionIndex = st.currentQuestionIndex
  | [], _ => ⟨rfl, rfl⟩
  | e :: rest, st => by
    cases e with
    | chunk c => exact foldl_voice_frame rest _
    | paraphrase v => exact foldl_voice_frame rest _
    | complete => exact foldl_voice_frame rest _
    | failure m => exact foldl_voice_frame rest _

theorem foldl_diag_no_complete :
    ∀ (evs : List SSEvent), SSEvent.complete ∉ evs →
      ∀ (fetched : SessionState) (st : ConsultationStore),
        (evs.foldl (applyDiagnosisEvent fetched) st).phase = st.phase ∧
        (evs.foldl (applyDiagnosisEvent fetched) st).sessionState = st.sessionState
  | [], _, _, _ => ⟨rfl, rfl⟩
  | e :: rest, h, fetched, st => by
    have hrest : SSEvent.complete ∉ rest := fun hc => h (List.mem_cons_of_mem e hc)
    cases e with
    | chunk c => exact foldl_diag_no_complete rest hrest fetched _
    | paraphrase v => exact foldl_diag_no_complete rest hrest fetched _
    | complete => exact absurd (List.mem_cons_self _ _) h
    | failure m => exact foldl_diag_no_complete rest hrest fetched _

theorem foldl_diag_failure_last (evs : List SSEvent) (m : String)
    (fetched : SessionState) (st : ConsultationStore) :
    (((evs ++ [SSEvent.failure m]).foldl (applyDiagnosisEvent fetched) st)).error = some m := by
  rw [List.foldl_append]
  rfl

theorem foldl_hook_chunks_frame :
    ∀ (ds : List String) (fetched : SessionState) (st : ConsultationStore),
      ((ds.map HookEvent.chunk).foldl (applyDiagnosisHookEvent fetched) st).phase = st.phase ∧
      ((ds.map HookEvent.chunk).foldl (applyDiagnosisHookEvent fetched) st).sessionState = st.sessionState ∧
      ((ds.map HookEvent.chunk).foldl (applyDiagnosisHookEvent fetched) st).sessionId = st.sessionId
  | [], _, _ => ⟨rfl, rfl, rfl⟩
  | d :: rest, fetched, st => foldl_hook_chunks_frame rest fetched _

theorem filter_complete_map_chunk (ds : List String) :
    (ds.map HookEvent.chunk).filter isCompleteEvent = [] := by
  induction ds with
  | nil => rfl
  | cons d rest ih => simpa [List.filter, isCompleteEvent] using ih

theorem completeDiagnosisStream_frame
    (st : ConsultationStore) (fetched : SessionState) (lines : List String)
    (ending : StreamEnd)
    (hnc : SSEvent.complete ∉ completeSessionStream false ending lines) :
    (completeDiagnosisStream st fetched lines ending).phase = st.phase ∧
    (completeDiagnosisStream st fetched lines ending).sessionState = st.sessionState := by
  unfold completeDiagnosisStream
  split
  · exact ⟨rfl, rfl⟩
  · split
    · exact ⟨rfl, rfl⟩
    · exact foldl_diag_no_complete _ hnc fetched _

/-! ## Claim theorems -/

/-- C1: for every sequence of SSE data chunks fed to
`completeSessionStream`, a chunk parsing as the recognized structured
side-channel payload (a JSON object with a non-null
`medication_english` member) is routed to the side-channel callback and
never appended to the accumulated body text, while every other chunk is
appended verbatim in arrival order; feeding the body chunks
`Take `, `rest `, the structured chunk, then `and hydrate.` followed by
the sentinel yields accumulated body text `Take rest and hydrate.` and
side-channel value `Rest`. -/
theorem claim1_stream_side_channel_routing :
    (∀ (ending : StreamEnd) (lines : List String),
      bodyChunks (completeSessionStream true ending lines) =
        (activePayloads lines).filter (fun d => (medicationEnglishOf d).isNone) ∧
      paraphrases (completeSessionStream true ending lines) =
        (activePayloads lines).filterMap medicationEnglishOf) ∧
    completeSessionStream true StreamEnd.closed exampleLines =
      [SSEvent.chunk ("Take "), SSEvent.chunk ("rest "),
       SSEvent.paraphrase (Json.jstr ("Rest")), SSEvent.chunk ("and hydrate."),
       SSEvent.complete] ∧
    concatAll (bodyChunks (completeSessionStream true StreamEnd.closed exampleLines)) =
      "Take rest and hydrate." ∧
    paraphrases (completeSessionStream true StreamEnd.closed exampleLines) =
      [Json.jstr ("Rest")] := by
  refine ⟨fun ending lines => ⟨?_, ?_⟩, rfl, rfl, rfl⟩
  · rw [completeSessionStream_eq, bodyChunks_append, bodyChunks_chunkEvents,
      bodyChunks_tail, List.append_nil]
  · rw [completeSessionStream_eq, paraphrases_append, paraphrases_chunkEvents,
      paraphrases_tail, List.append_nil]

/-- C3, counterexample: a stream that closes cleanly before the
sentinel makes `completeSessionStream` emit a completion event (not a
failure event), and `completeDiagnosis` then marks the session's phase
`prescription` on the partial text — contradicting the claim that a
close before the sentinel yields a failure event and never marks the
session complete. -/
theorem claim3_counterexample :
    completeSessionStream false StreamEnd.closed [("data: Hello")] =
      [SSEvent.chunk ("Hello"), SSEvent.complete] ∧
    (completeDiagnosisStream cexDiagState cexSession [("data: Hello")]
        StreamEnd.closed).phase = ConsultationPhaseClassic.prescription := by
  exact ⟨rfl, rfl⟩

/-- C3, amended: on a transport error before the sentinel the
aggregator emits the delivered chunks followed by exactly one failure
event and no completion event, `completeDiagnosis` records the error
message, and the session is not marked complete (phase and session
snapshot unchanged); a clean close before the sentinel instead emits a
completion event. -/
theorem claim3_transport_error_amended
    (st : ConsultationStore) (fetched : SessionState) (lines : List String)
    (m : String) (hnd : ("[DONE]" : String) ∉ payloads lines) :
    completeSessionStream false (StreamEnd.errored m) lines =
      chunkEvents false (activePayloads lines) ++ [SSEvent.failure m] ∧
    SSEvent.complete ∉ completeSessionStream false (StreamEnd.errored m) lines ∧
    (completeDiagnosisStream st fetched lines (StreamEnd.errored m)).phase = st.phase ∧
    (completeDiagnosisStream st fetched lines (StreamEnd.errored m)).sessionState
      = st.sessionState ∧
    completeSessionStream false StreamEnd.closed lines =
      chunkEvents false (activePayloads lines) ++ [SSEvent.complete] := by
  have hstream := completeSessionStream_eq false (StreamEnd.errored m) lines
  rw [if_neg hnd] at hstream
  simp only [endEvents] at hstream
  have hclosed := completeSessionStream_eq false StreamEnd.closed lines
  rw [if_neg hnd] at hclosed
  simp only [endEvents] at hclosed
  have hnc : SSEvent.complete ∉ completeSessionStream false (StreamEnd.errored m) lines := by
    rw [hstream]
    intro hc
    rcases List.mem_append.mp hc with hc1 | hc2
    · exact complete_not_mem_chunkEvents false (activePayloads lines) hc1
    · simp at hc2
  have hframe := completeDiagnosisStream_frame st fetched lines (StreamEnd.errored m) hnc
  exact ⟨hstream, hnc, hframe.1, hframe.2, hclosed⟩

/-- C3, witness for the amended theorem. -/
theorem claim3_amended_witness :
    (("[DONE]" : String) ∉ payloads cexAbortLines) ∧
    (completeSessionStream false (StreamEnd.errored ("boom")) cexAbortLines =
      chunkEvents false (activePayloads cexAbortLines) ++ [SSEvent.failure ("boom")] ∧
    SSEvent.complete ∉ completeSessionStream false (StreamEnd.errored ("boom")) cexAbortLines ∧
    (completeDiagnosisStream cexDiagState cexSession cexAbortLines
        (StreamEnd.errored ("boom"))).phase = cexDiagState.phase ∧
    (completeDiagnosisStream cexDiagState cexSession cexAbortLines
        (StreamEnd.errored ("boom"))).sessionState = cexDiagState.sessionState ∧
    completeSessionStream false StreamEnd.closed cexAbortLines =
      chunkEvents false (activePayloads cexAbortLines) ++ [SSEvent.complete]) :=
  ⟨by decide,
   claim3_transport_error_amended cexDiagState cexSession cexAbortLines ("boom") (by decide)⟩

/-- C5: when the `[DONE]` sentinel arrives, the hook's `startStream`
emits the body chunks in arrival order followed by exactly one
completion event carrying the accumulated text, which is the
concatenation of all previously delivered chunks; the sentinel itself
is never among the accumulated chunks. -/
theorem claim5_sentinel_completion
    (lines : List String) (ending : HookEnd)
    (h : ("[DONE]" : String) ∈ payloads lines) :
    startStream "" ending lines =
      (activePayloads lines).map HookEvent.chunk ++
        [HookEvent.complete (concatAll (activePayloads lines))] ∧
    (startStream "" ending lines).filter isCompleteEvent =
      [HookEvent.complete (concatAll (activePayloads lines))] ∧
    ("[DONE]" : String) ∉ activePayloads lines := by
  have hs := startStream_eq ending lines ""
  rw [if_pos h, String.empty_append] at hs
  refine ⟨hs, ?_, ?_⟩
  · rw [hs, List.filter_append, filter_complete_map_chunk]
    rfl
  · intro hc
    have := List.mem_takeWhile_imp hc
    simp at this

/-- C5, witness. -/
theorem claim5_witness :
    (("[DONE]" : String) ∈ payloads cexHookLines) ∧
    (startStream "" HookEnd.closed cexHookLines =
      (activePayloads cexHookLines).map HookEvent.chunk ++
        [HookEvent.complete (concatAll (activePayloads cexHookLines))] ∧
    (startStream "" HookEnd.closed cexHookLines).filter isCompleteEvent =
      [HookEvent.complete (concatAll (activePayloads cexHookLines))] ∧
    ("[DONE]" : String) ∉ activePayloads cexHookLines) :=
  ⟨by decide, claim5_sentinel_completion cexHookLines HookEnd.closed (by decide)⟩

/-- C10, counterexample: `reset` does not restore the `questions` list
to its creation-time value — after resetting a state with committed
questions, the questions survive, so the result differs from the
creation-time store state. -/
theorem claim10_counterexample :
    (VoiceStore.reset cexResetState).questions = [("Q1")] ∧
    initialVoiceStore.questions = [] ∧
    VoiceStore.reset cexResetState ≠ initialVoiceStore := by
  refine ⟨rfl, rfl, fun h => ?_⟩
  exact List.cons_ne_nil ("Q1") [] (congrArg VoiceStore.questions h)

/-- C10, amended: from every store state, `reset` restores every field
except `questions` to its creation-time value (`sessionId` null, phase
`patient-info`, index 0, history empty, streamed medication empty, …),
while `questions` keeps its current value; `reset` is idempotent. -/
theorem claim10_reset_amended :
    (∀ st : VoiceStore,
      VoiceStore.reset st = { initialVoiceStore with questions := st.questions }) ∧
    (∀ st : VoiceStore, VoiceStore.reset (VoiceStore.reset st) = VoiceStore.reset st) ∧
    (∀ st : VoiceStore,
      (VoiceStore.reset st).sessionId = none ∧
      (VoiceStore.reset st).phase = ConsultationPhase.patientInfo ∧
      (VoiceStore.reset st).currentQuestionIndex = 0 ∧
      (VoiceStore.reset st).conversationHistory = [] ∧
      (VoiceStore.reset st).streamedMedication = "" ∧
      (VoiceStore.reset st).questions = st.questions) :=
  ⟨fun _ => rfl, fun _ => rfl, fun _ => ⟨rfl, rfl, rfl, rfl, rfl, rfl⟩⟩

theorem parseQuestionList_some {o : Option (List String)} {qs : List String}
    (h : parseQuestionList o = some qs) : qs ≠ [] := by
  match o with
  | none => simp [parseQuestionList] at h
  | some [] => simp [parseQuestionList] at h
  | some (x :: xs) =>
    simp [parseQuestionList] at h
    rw [← h]
    exact List.cons_ne_nil x xs

theorem committed_rejects (s : Session) (qs : List String) (c : String)
    (hqs : qs ≠ []) (g1' g2' : GenOracle) (c' : String) :
    generateQuestions g1' g2'
      { s with questions := qs, initialComplaint := c,
               phase := SessionPhase.answeringQuestions, currentQuestionIndex := 0 } c'
      = Except.error OrchError.invalidPhaseTransition := by
  unfold generateQuestions
  rw [if_neg]
  intro hc
  exact hqs hc.1

theorem completeDiagnosisStream_success (st : ConsultationStore)
    (fetched : SessionState) (sid : String)
    (hs : st.sessionId = some sid) (hne : sid ≠ "") :
    (completeDiagnosisStream st fetched cexRetryLines StreamEnd.closed).phase
      = ConsultationPhaseClassic.prescription ∧
    (completeDiagnosisStream st fetched cexRetryLines StreamEnd.closed).sessionState
      = some fetched := by
  unfold completeDiagnosisStream
  split
  · rename_i heq
    rw [hs] at heq
    cases heq
  · rename_i sid' heq
    rw [hs] at heq
    injection heq with heq'
    subst heq'
    rw [if_neg hne]
    rw [show completeSessionStream false StreamEnd.closed cexRetryLines = [SSEvent.complete]
        from rfl]
    exact ⟨rfl, rfl⟩

/-- C2, counterexample: on the final accepted answer,
`submitVoiceAnswer` appends the turn but never advances
`currentQuestionIndex`, so immediately after the call the number of
recorded turns is 1 while the index is 0 — the claimed invariant
`conversationHistory.length == currentQuestionIndex` fails. -/
theorem claim2_counterexample :
    (submitVoiceAnswer cexVoiceState ("yes") (Except.ok cexSubmitResp) cexDoneLines
        StreamEnd.closed (Except.ok cexSession)).conversationHistory.length = 1 ∧
    (submitVoiceAnswer cexVoiceState ("yes") (Except.ok cexSubmitResp) cexDoneLines
        StreamEnd.closed (Except.ok cexSession)).currentQuestionIndex = 0 ∧
    ¬((submitVoiceAnswer cexVoiceState ("yes") (Except.ok cexSubmitResp) cexDoneLines
        StreamEnd.closed (Except.ok cexSession)).conversationHistory.length
      = (submitVoiceAnswer cexVoiceState ("yes") (Except.ok cexSubmitResp) cexDoneLines
        StreamEnd.closed (Except.ok cexSession)).currentQuestionIndex) :=
  ⟨rfl, rfl, fun h => Nat.one_ne_zero h⟩

/-- C2, amended: immediately after every `submitVoiceAnswer` call from
a state satisfying the invariant, with the server advancing the index
by exactly one on acceptance, the invariant
`conversationHistory.length = currentQuestionIndex` still holds on
failure and on every non-final accepted answer; on the final accepted
answer the history instead ends up one ahead of the index
(`length = index + 1`), because the completion branch does not advance
the index. -/
theorem claim2_submit_turn_invariant_amended
    (st : VoiceStore) (answer : String) (resp : SubmitResp)
    (streamLines : List String) (streamEnd : StreamEnd)
    (sessionResult : Except String SessionState)
    (hinv : st.conversationHistory.length = st.currentQuestionIndex)
    (hidx : resp.current_index = st.currentQuestionIndex + 1) :
    (∀ m : String,
      (submitVoiceAnswer st answer (Except.error m) streamLines streamEnd
          sessionResult).conversationHistory.length
        = (submitVoiceAnswer st answer (Except.error m) streamLines streamEnd
          sessionResult).currentQuestionIndex) ∧
    (resp.is_complete = false →
      (submitVoiceAnswer st answer (Except.ok resp) streamLines streamEnd
          sessionResult).conversationHistory.length
        = (submitVoiceAnswer st answer (Except.ok resp) streamLines streamEnd
          sessionResult).currentQuestionIndex) ∧
    (resp.is_complete = true →
      ∀ sid q, st.sessionId = some sid → sid ≠ "" →
        st.currentQuestion = some q → q ≠ "" →
        (submitVoiceAnswer st answer (Except.ok resp) streamLines streamEnd
            sessionResult).conversationHistory.length
          = (submitVoiceAnswer st answer (Except.ok resp) streamLines streamEnd
            sessionResult).currentQuestionIndex + 1) := by
  refine ⟨?_, ?_, ?_⟩
  · intro m
    unfold submitVoiceAnswer submitVoiceAnswerTr
    split
    · split
      · exact hinv
      · exact hinv
    · exact hinv
  · intro hc
    unfold submitVoiceAnswer submitVoiceAnswerTr
    split
    · split
      · exact hinv
      · dsimp only
        rw [if_neg (by simp [hc])]
        split
        · exact hinv
        · simp only [List.length_append, List.length_cons, List.length_nil]
          rw [hidx, hinv]
    · exact hinv
  · intro hc sid q hsid hne hq hqne
    have hg : ¬(sid = "" ∨ q = "") := by
      rintro (h1 | h2)
      · exact hne h1
      · exact hqne h2
    unfold submitVoiceAnswer submitVoiceAnswerTr
    rw [hsid, hq]
    dsimp only
    rw [if_neg hg, if_pos hc]
    rw [(foldl_voice_frame _ _).1, (foldl_voice_frame _ _).2]
    dsimp only
    simp only [List.length_append, List.length_cons, List.length_nil]
    rw [hinv]

/-- C2, witness for the amended theorem. -/
theorem claim2_amended_witness :
    (cexVoiceState.conversationHistory.length = cexVoiceState.currentQuestionIndex ∧
     cexSubmitResp.current_index = cexVoiceState.currentQuestionIndex + 1) ∧
    ((∀ m : String,
      (submitVoiceAnswer cexVoiceState ("yes") (Except.error m) cexDoneLines
          StreamEnd.closed (Except.ok cexSession)).conversationHistory.length
        = (submitVoiceAnswer cexVoiceState ("yes") (Except.error m) cexDoneLines
          StreamEnd.closed (Except.ok cexSession)).currentQuestionIndex) ∧
    (cexSubmitResp.is_complete = false →
      (submitVoiceAnswer cexVoiceState ("yes") (Except.ok cexSubmitResp) cexDoneLines
          StreamEnd.closed (Except.ok cexSession)).conversationHistory.length
        = (submitVoiceAnswer cexVoiceState ("yes") (Except.ok cexSubmitResp) cexDoneLines
          StreamEnd.closed (Except.ok cexSession)).currentQuestionIndex) ∧
    (cexSubmitResp.is_complete = true →
      ∀ sid q, cexVoiceState.sessionId = some sid → sid ≠ "" →
        cexVoiceState.currentQuestion = some q → q ≠ "" →
        (submitVoiceAnswer cexVoiceState ("yes") (Except.ok cexSubmitResp) cexDoneLines
            StreamEnd.closed (Except.ok cexSession)).conversationHistory.length
          = (submitVoiceAnswer cexVoiceState ("yes") (Except.ok cexSubmitResp) cexDoneLines
            StreamEnd.closed (Except.ok cexSession)).currentQuestionIndex + 1)) :=
  ⟨⟨by decide, by decide⟩,
   claim2_submit_turn_invariant_amended cexVoiceState ("yes") cexSubmitResp cexDoneLines
     StreamEnd.closed (Except.ok cexSession) (by decide) (by decide)⟩

/-- C4: after the caller cancels an in-flight stream, no further chunk,
completion, or error event is delivered (the run's events are exactly
the chunks received before the abort), the session phase is left at
`diagnosis` (the recommendation-generating phase) with the
recommendation text still null and the session snapshot untouched, and
a subsequent completion attempt on the same session succeeds
independently. -/
theorem claim4_cancellation
    (st : ConsultationStore) (fetched fetched2 : SessionState)
    (lines : List String) (sid : String)
    (hsid : st.sessionId = some sid) (hne : sid ≠ "")
    (hnd : ("[DONE]" : String) ∉ payloads lines)
    (hphase : st.phase = ConsultationPhaseClassic.diagnosis)
    (hrec : recommendationOf st = none) :
    startStream "" HookEnd.aborted lines = (activePayloads lines).map HookEvent.chunk ∧
    (runDiagnosisHook st fetched lines HookEnd.aborted).phase
      = ConsultationPhaseClassic.diagnosis ∧
    (runDiagnosisHook st fetched lines HookEnd.aborted).sessionState = st.sessionState ∧
    recommendationOf (runDiagnosisHook st fetched lines HookEnd.aborted) = none ∧
    (runDiagnosisHook st fetched lines HookEnd.aborted).sessionId = some sid ∧
    (completeDiagnosisStream (runDiagnosisHook st fetched lines HookEnd.aborted) fetched2
        cexRetryLines StreamEnd.closed).phase = ConsultationPhaseClassic.prescription ∧
    (completeDiagnosisStream (runDiagnosisHook st fetched lines HookEnd.aborted) fetched2
        cexRetryLines StreamEnd.closed).sessionState = some fetched2 := by
  have hss := startStream_eq HookEnd.aborted lines ""
  rw [if_neg hnd] at hss
  simp only [hookEndEvents, List.append_nil] at hss
  have hrun : runDiagnosisHook st fetched lines HookEnd.aborted
      = ((activePayloads lines).map HookEvent.chunk).foldl (applyDiagnosisHookEvent fetched)
          { st with isLoading := true, isStreaming := true, error := none,
                    streamedMedication := "" } := by
    unfold runDiagnosisHook
    rw [hss]
  have hframe := foldl_hook_chunks_frame (activePayloads lines) fetched
    { st with isLoading := true, isStreaming := true, error := none,
              streamedMedication := "" }
  have hphase' : (runDiagnosisHook st fetched lines HookEnd.aborted).phase
      = ConsultationPhaseClassic.diagnosis := by
    rw [hrun, hframe.1]
    exact hphase
  have hstate' : (runDiagnosisHook st fetched lines HookEnd.aborted).sessionState
      = st.sessionState := by
    rw [hrun, hframe.2.1]
  have hsid' : (runDiagnosisHook st fetched lines HookEnd.aborted).sessionId = some sid := by
    rw [hrun, hframe.2.2]
    exact hsid
  have hretry := completeDiagnosisStream_success
    (runDiagnosisHook st fetched lines HookEnd.aborted) fetched2 sid hsid' hne
  refine ⟨hss, hphase', hstate', ?_, hsid', hretry.1, hretry.2⟩
  unfold recommendationOf
  rw [hstate']
  exact hrec

/-- C4, witness. -/
theorem claim4_witness :
    (cexDiagState.sessionId = some ("s1") ∧ ("s1" : String) ≠ "" ∧
     ("[DONE]" : String) ∉ payloads cexAbortLines ∧
     cexDiagState.phase = ConsultationPhaseClassic.diagnosis ∧
     recommendationOf cexDiagState = none) ∧
    (startStream "" HookEnd.aborted cexAbortLines
        = (activePayloads cexAbortLines).map HookEvent.chunk ∧
    (runDiagnosisHook cexDiagState cexSession cexAbortLines HookEnd.aborted).phase
      = ConsultationPhaseClassic.diagnosis ∧
    (runDiagnosisHook cexDiagState cexSession cexAbortLines HookEnd.aborted).sessionState
      = cexDiagState.sessionState ∧
    recommendationOf (runDiagnosisHook cexDiagState cexSession cexAbortLines HookEnd.aborted)
      = none ∧
    (runDiagnosisHook cexDiagState cexSession cexAbortLines HookEnd.aborted).sessionId
      = some ("s1") ∧
    (completeDiagnosisStream
        (runDiagnosisHook cexDiagState cexSession cexAbortLines HookEnd.aborted) cexSession
        cexRetryLines StreamEnd.closed).phase = ConsultationPhaseClassic.prescription ∧
    (completeDiagnosisStream
        (runDiagnosisHook cexDiagState cexSession cexAbortLines HookEnd.aborted) cexSession
        cexRetryLines StreamEnd.closed).sessionState = some cexSession) :=
  ⟨⟨rfl, by decide, by decide, rfl, rfl⟩,
   claim4_cancellation cexDiagState cexSession cexSession cexAbortLines ("s1")
     rfl (by decide) (by decide) rfl rfl⟩

/-- C6: a `submitAnswer` call with `questionIndex` different from the
session's `currentQuestionIndex` always fails with
`QuestionIndexOutOfRange` (and, the operation being pure, produces no
successor session state); and a failing store-level submit leaves the
conversation, the index, and every other session-related store field
unchanged. -/
theorem claim6_out_of_order_rejection :
    (∀ (s : Session) (i : Nat) (a : String), i ≠ s.currentQuestionIndex →
      submitAnswer s i a = Except.error OrchError.questionIndexOutOfRange) ∧
    (∀ (st : VoiceStore) (answer m : String) (streamLines : List String)
        (streamEnd : StreamEnd) (sessionResult : Except String SessionState),
      (submitVoiceAnswer st answer (Except.error m) streamLines streamEnd
          sessionResult).conversationHistory = st.conversationHistory ∧
      (submitVoiceAnswer st answer (Except.error m) streamLines streamEnd
          sessionResult).currentQuestionIndex = st.currentQuestionIndex ∧
      (submitVoiceAnswer st answer (Except.error m) streamLines streamEnd
          sessionResult).sessionId = st.sessionId ∧
      (submitVoiceAnswer st answer (Except.error m) streamLines streamEnd
          sessionResult).sessionState = st.sessionState ∧
      (submitVoiceAnswer st answer (Except.error m) streamLines streamEnd
          sessionResult).currentQuestion = st.currentQuestion ∧
      (submitVoiceAnswer st answer (Except.error m) streamLines streamEnd
          sessionResult).questions = st.questions ∧
      (submitVoiceAnswer st answer (Except.error m) streamLines streamEnd
          sessionResult).phase = st.phase ∧
      (submitVoiceAnswer st answer (Except.error m) streamLines streamEnd
          sessionResult).patientData = st.patientData ∧
      (submitVoiceAnswer st answer (Except.error m) streamLines streamEnd
          sessionResult).streamedMedication = st.streamedMedication ∧
      (submitVoiceAnswer st answer (Except.error m) streamLines streamEnd
          sessionResult).streamedMedicationEnglish = st.streamedMedicationEnglish) := by
  constructor
  · intro s i a h
    unfold submitAnswer
    rw [if_pos h]
  · intro st answer m streamLines streamEnd sessionResult
    unfold submitVoiceAnswer submitVoiceAnswerTr
    split
    · split
      · exact ⟨rfl, rfl, rfl, rfl, rfl, rfl, rfl, rfl, rfl, rfl⟩
      · exact ⟨rfl, rfl, rfl, rfl, rfl, rfl, rfl, rfl, rfl, rfl⟩
    · exact ⟨rfl, rfl, rfl, rfl, rfl, rfl, rfl, rfl, rfl, rfl⟩

/-- C6, witness. -/
theorem claim6_witness :
    (1 ≠ cexBackendSession.currentQuestionIndex) ∧
    submitAnswer cexBackendSession 1 ("late answer")
      = Except.error OrchError.questionIndexOutOfRange :=
  ⟨by decide,
   claim6_out_of_order_rejection.1 cexBackendSession 1 ("late answer") (by decide)⟩

/-- C7: `createSession` allocates a new session in `active` status and
the initial `collecting-info` phase with no generated content, performs
no generative-model call (its result is independent of the generative
collaborator), and fails with `InvalidPatientInfo` exactly when the age
or language is outside the accepted domain — in which case no session
is created. -/
theorem claim7_create_session_validation :
    (∀ (g : GenOracle) (newId : String) (info : PatientInfo),
      validPatientInfo info = true →
      ∃ s : Session, createSession g newId info = Except.ok s ∧
        s.status = SessionStatus.active ∧ s.phase = SessionPhase.collectingInfo ∧
        s.questions = [] ∧ s.conversation = [] ∧ s.recommendationText = none) ∧
    (∀ (g : GenOracle) (newId : String) (info : PatientInfo),
      validPatientInfo info = false →
      createSession g newId info = Except.error OrchError.invalidPatientInfo) ∧
    (∀ info : PatientInfo,
      validPatientInfo info = true ↔
        (VALIDATION_MIN_AGE ≤ info.age ∧ info.age ≤ VALIDATION_MAX_AGE ∧
          info.language ∈ supportedLanguageCodes)) ∧
    (∀ (g1 g2 : GenOracle) (newId : String) (info : PatientInfo),
      createSession g1 newId info = createSession g2 newId info) := by
  refine ⟨?_, ?_, ?_, ?_⟩
  · intro g newId info h
    refine ⟨newSessionOf newId info, ?_, rfl, rfl, rfl, rfl, rfl⟩
    unfold createSession
    rw [if_pos h]
  · intro g newId info h
    unfold createSession
    rw [if_neg (by simp [h])]
  · intro info
    unfold validPatientInfo
    exact decide_eq_true_iff
  · intro g1 g2 newId info
    rfl

/-- C7, witness. -/
theorem claim7_witness :
    (validPatientInfo cexInfo = true) ∧
    (∃ s : Session, createSession cexGenFail ("id1") cexInfo = Except.ok s ∧
      s.status = SessionStatus.active ∧ s.phase = SessionPhase.collectingInfo ∧
      s.questions = [] ∧ s.conversation = [] ∧ s.recommendationText = none) :=
  ⟨by decide,
   claim7_create_session_validation.1 cexGenFail ("id1") cexInfo (by decide)⟩

/-- C8: `generateQuestions` is idempotent-rejecting — once a call has
committed questions (phase advanced to `answering-questions`, questions
non-empty), every further call fails with `InvalidPhaseTransition`
regardless of its arguments, and, the operation being pure, the
committed questions stay as they are. -/
theorem claim8_generate_questions_once
    (g1 g2 g1' g2' : GenOracle) (s s' : Session) (c c' : String)
    (h : generateQuestions g1 g2 s c = Except.ok s') :
    generateQuestions g1' g2' s' c' = Except.error OrchError.invalidPhaseTransition ∧
    s'.phase = SessionPhase.answeringQuestions ∧
    s'.questions ≠ [] := by
  unfold generateQuestions at h
  by_cases hg : s.questions = [] ∧
      (s.phase = SessionPhase.collectingInfo ∨ s.phase = SessionPhase.collectingComplaint)
  · rw [if_pos hg] at h
    cases hq1 : parseQuestionList (g1 c) with
    | some qs =>
      rw [hq1] at h
      simp only [Except.ok.injEq] at h
      subst h
      exact ⟨committed_rejects s qs c (parseQuestionList_some hq1) g1' g2' c', rfl,
        parseQuestionList_some hq1⟩
    | none =>
      rw [hq1] at h
      cases hq2 : parseQuestionList (g2 c) with
      | some qs =>
        rw [hq2] at h
        simp only [Except.ok.injEq] at h
        subst h
        exact ⟨committed_rejects s qs c (parseQuestionList_some hq2) g1' g2' c', rfl,
          parseQuestionList_some hq2⟩
      | none =>
        rw [hq2] at h
        cases h
  · rw [if_neg hg] at h
    cases h

/-- C8, witness. -/
theorem claim8_witness :
    (generateQuestions cexGen cexGen cexFreshSession ("I have a headache")
      = Except.ok cexCommittedSession) ∧
    (generateQuestions cexGen cexGen cexCommittedSession ("again")
        = Except.error OrchError.invalidPhaseTransition ∧
     cexCommittedSession.phase = SessionPhase.answeringQuestions ∧
     cexCommittedSession.questions ≠ []) :=
  ⟨rfl,
   claim8_generate_questions_once cexGen cexGen cexGen cexGen cexFreshSession
     cexCommittedSession ("I have a headache") ("again") rfl⟩

/-- C9: whenever `sessionId` or `currentQuestion` is null,
`submitVoiceAnswer` returns immediately — it issues no network request
and leaves the whole store state unchanged. -/
theorem claim9_guard_frame
    (st : VoiceStore) (answer : String) (submitResult : Except String SubmitResp)
    (streamLines : List String) (streamEnd : StreamEnd)
    (sessionResult : Except String SessionState)
    (h : st.sessionId = none ∨ st.currentQuestion = none) :
    submitVoiceAnswerTr st answer submitResult streamLines streamEnd sessionResult
      = (st, []) := by
  unfold submitVoiceAnswerTr
  rcases h with h | h
  · rw [h]
  · rw [h]
    cases st.sessionId <;> rfl

/-- C9, witness. -/
theorem claim9_witness :
    (initialVoiceStore.sessionId = none ∨ initialVoiceStore.currentQuestion = none) ∧
    submitVoiceAnswerTr initialVoiceStore ("x") (Except.error ("e")) [] StreamEnd.closed
      (Except.error ("e")) = (initialVoiceStore, []) :=
  ⟨Or.inl rfl,
   claim9_guard_frame initialVoiceStore ("x") (Except.error ("e")) [] StreamEnd.closed
     (Except.error ("e")) (Or.inl rfl)⟩

end DocJarvis
